import Mathlib

/-!
Verification of the token lease pool service (`app/services/token_service.py`)
against its natural-language specification.

The Redis-backed state is shallowly embedded as `RState`:
* the three Redis sets `Token`, `Unassigned`, `Assigned` become lists of
  token identifiers (Redis set members are the strings `token:<id>`; the
  constant prefix is injective, so members are keyed here by `<id>`);
* the three families of TTL-bearing keys `token:<id>:tokens`,
  `token:<id>:assigned`, `token:<id>:unassigned` become association lists
  from token identifier to remaining TTL in seconds.

Redis primitive semantics modelled:
* `TTL k` returns the remaining seconds when `k` is present and `-2` when
  absent (every key in this service is created via `SETEX`, so the `-1`
  "no expiry" answer never arises);
* `SETEX k n v` raises an error unless `n > 0`;
* `EXPIRE k n` is a no-op when `k` is absent, deletes `k` when `n ≤ 0`,
  and otherwise sets the remaining TTL to `n`;
* `SPOP` on a set yields an arbitrary member; the model pops the head of
  the list (the list order stands for Redis's arbitrary choice);
* `SADD` / `SREM` / `SISMEMBER` are the usual set operations.

Python `raise` statements become typed errors (`Err`); each operation
returns the result together with the state reached, so that the state at
the moment an exception is raised is observable.
-/

/-- Configuration values read from `app/config.py` (`Settings`). -/
structure Config where
  token_expiry : Nat
  active_expiry : Nat
  keep_alive_interval : Nat
deriving DecidableEq, Repr

/-- The default values in `app/config.py`. -/
def defaultConfig : Config :=
  { token_expiry := 300, active_expiry := 60, keep_alive_interval := 300 }

/-- The exceptions raised by `token_service.py`, as typed errors. -/
inductive Err where
  | notFound        -- "No such token found" / "No such token present" / "No such token in system"
  | notAssigned     -- "This token is not assigned and hence cannot be unblocked"
  | poolExhausted   -- "No available tokens"
  | invalidExpire   -- Redis error: SETEX with a non-positive TTL
deriving DecidableEq, Repr

deriving instance DecidableEq for Except

/-- SADD: add a member to a set (idempotent). -/
def sadd (l : List String) (t : String) : List String :=
  if t ∈ l then l else t :: l

/-- SREM: remove a member from a set. -/
def srem : List String → String → List String
  | [], _ => []
  | x :: rest, t => if x = t then srem rest t else x :: srem rest t

/-- Lookup in an association list of TTL-bearing keys. -/
def kfind : List (String × Nat) → String → Option Nat
  | [], _ => none
  | (k, v) :: rest, t => if k = t then some v else kfind rest t

/-- Remove a TTL-bearing key (Redis `DEL`). -/
def kdel : List (String × Nat) → String → List (String × Nat)
  | [], _ => []
  | (k, v) :: rest, t => if k = t then kdel rest t else (k, v) :: kdel rest t

/-- Write a TTL-bearing key with a given remaining TTL. -/
def kset (m : List (String × Nat)) (t : String) (v : Nat) : List (String × Nat) :=
  (t, v) :: kdel m t

/-- Redis `TTL`: remaining seconds, or `-2` when the key is absent. -/
def kttl (m : List (String × Nat)) (t : String) : Int :=
  match kfind m t with
  | some n => (n : Int)
  | none => -2

/-- Redis `SETEX`: raises unless the requested TTL is positive. -/
def ksetex (m : List (String × Nat)) (t : String) (v : Int) :
    Except Err (List (String × Nat)) :=
  if v ≤ 0 then .error .invalidExpire else .ok (kset m t v.toNat)

/-- Redis `EXPIRE`: no-op on an absent key; a non-positive TTL deletes the key. -/
def kexpire (m : List (String × Nat)) (t : String) (v : Int) : List (String × Nat) :=
  match kfind m t with
  | none => m
  | some _ => if v ≤ 0 then kdel m t else kset m t v.toNat

/-- The full externalized state of the service inside Redis. -/
structure RState where
  tokenSet : List String                 -- the "Token" registry set
  unassignedSet : List String            -- the "Unassigned" set
  assignedSet : List String              -- the "Assigned" set
  tokensTTL : List (String × Nat)        -- keys "token:<id>:tokens" (Lease Timer)
  assignedTTL : List (String × Nat)      -- keys "token:<id>:assigned" (Assignment Timer)
  unassignedTTL : List (String × Nat)    -- keys "token:<id>:unassigned" (Availability Timer)
deriving DecidableEq, Repr

/-- `TokenService.generate_token`, with the unbounded `while True` loop made
structural: `cand i` is the candidate produced by the `i`-th call to
`uuid.uuid4()`, and `fuel` bounds how many loop iterations we observe.
`none` means the loop was still running after `fuel` iterations; `some`
carries the returned message and the final state. -/
def generate_token (cfg : Config) (cand : Nat → String) (s : RState) :
    Nat → Nat → Option (Except Err String × RState)
  | 0, _ => none
  | fuel + 1, i =>
    let token := cand i
    if token ∈ s.tokenSet then
      generate_token cfg cand s fuel (i + 1)
    else
      let s1 := { s with unassignedSet := sadd s.unassignedSet token }
      let s2 := { s1 with tokenSet := sadd s1.tokenSet token }
      match ksetex s2.unassignedTTL token cfg.token_expiry with
      | .error e => some (.error e, s2)
      | .ok mu =>
        let s3 := { s2 with unassignedTTL := mu }
        match ksetex s3.tokensTTL token cfg.token_expiry with
        | .error e => some (.error e, s3)
        | .ok mt => some (.ok "token successfully generated", { s3 with tokensTTL := mt })

/-- `TokenService.assign_token`: pop (or take the preset) member from
`Unassigned`, add to `Assigned`, SETEX the assignment timer, delete the
availability timer, and extend the lease timer up to `active_expiry` when
it is shorter. Returns the bare token identifier. -/
def assign_token (cfg : Config) (s : RState) (preset : Option String) :
    Except Err String × RState :=
  let popped : Option String × RState :=
    match preset with
    | none =>
      match s.unassignedSet with
      | [] => (none, s)
      | h :: rest => (some h, { s with unassignedSet := rest })
    | some k => (some k, { s with unassignedSet := srem s.unassignedSet k })
  match popped with
  | (none, s1) => (.error .poolExhausted, s1)
  | (some tk, s1) =>
    let s2 := { s1 with assignedSet := sadd s1.assignedSet tk }
    match ksetex s2.assignedTTL tk cfg.active_expiry with
    | .error e => (.error e, s2)
    | .ok ma =>
      let s3 := { s2 with assignedTTL := ma }
      let s4 := { s3 with unassignedTTL := kdel s3.unassignedTTL tk }
      let current_ttl := kttl s4.tokensTTL tk
      let s5 :=
        if current_ttl < (cfg.active_expiry : Int) then
          { s4 with tokensTTL := kexpire s4.tokensTTL tk cfg.active_expiry }
        else s4
      (.ok tk, s5)

/-- `TokenService.keep_alive`: `NotFound` for an unknown token; an assigned
token gets its assignment timer extended by `keep_alive_interval` on top of
the current remaining TTL; an unassigned token is promoted through
`assign_token` with a preset key; finally the lease timer is extended by
`keep_alive_interval` on top of its current remaining TTL. -/
def keep_alive (cfg : Config) (s : RState) (t : String) : Except Err Unit × RState :=
  if t ∈ s.tokenSet then
    let branch : Except Err Unit × RState :=
      if t ∈ s.assignedSet then
        let current_ttl := kttl s.assignedTTL t
        let m1 := kexpire s.assignedTTL t (current_ttl + (cfg.keep_alive_interval : Int))
        (.ok (), { s with assignedTTL := m1 })
      else if t ∈ s.unassignedSet then
        let r := assign_token cfg s (some t)
        (r.1.map (fun _ => ()), r.2)
      else (.ok (), s)
    match branch with
    | (.error e, s1) => (.error e, s1)
    | (.ok _, s1) =>
      let current_ttl := kttl s1.tokensTTL t
      let m2 := kexpire s1.tokensTTL t (current_ttl + (cfg.keep_alive_interval : Int))
      (.ok (), { s1 with tokensTTL := m2 })
  else (.error .notFound, s)

/-- `TokenService.unblock_token`: `NotFound` for an unknown token,
`NotAssigned` for an unassigned one; otherwise remove from `Assigned`,
delete the assignment timer, read the lease timer's remaining TTL, add to
`Unassigned`, and SETEX the availability timer with that TTL. -/
def unblock_token (s : RState) (t : String) : Except Err String × RState :=
  if t ∈ s.tokenSet then
    if t ∈ s.assignedSet then
      let s1 := { s with assignedSet := srem s.assignedSet t }
      let s2 := { s1 with assignedTTL := kdel s1.assignedTTL t }
      let ttl := kttl s2.tokensTTL t
      let s3 := { s2 with unassignedSet := sadd s2.unassignedSet t }
      match ksetex s3.unassignedTTL t ttl with
      | .error e => (.error e, s3)
      | .ok mu => (.ok t, { s3 with unassignedTTL := mu })
    else (.error .notAssigned, s)
  else (.error .notFound, s)

/-- `TokenService.delete_token`: `NotFound` for an unknown token; otherwise
remove it from all three sets and delete all three timer keys. -/
def delete_token (s : RState) (t : String) : Except Err String × RState :=
  if t ∈ s.tokenSet then
    (.ok t,
      { tokenSet := srem s.tokenSet t
        unassignedSet := srem s.unassignedSet t
        assignedSet := srem s.assignedSet t
        tokensTTL := kdel s.tokensTTL t
        assignedTTL := kdel s.assignedTTL t
        unassignedTTL := kdel s.unassignedTTL t })
  else (.error .notFound, s)

/-- An expiration-event message from the pub/sub stream, as the monitor
classifies it: the subscription confirmation (not a `pmessage`), an expired
`token:<id>:assigned` key, an expired `token:<id>:tokens` key, or any other
expired key (e.g. `token:<id>:unassigned`), which falls through both
`endswith` checks. -/
inductive RMsg where
  | subscribeAck
  | assignedExpired (t : String)
  | tokensExpired (t : String)
  | otherExpired
deriving DecidableEq, Repr

/-- The per-event body of `monitor_expired_tokens`'s `async for` loop: an
expired `:assigned` key reads the lease timer's remaining TTL, skips when it
is negative, and otherwise adds the token to `Unassigned`, removes it from
`Assigned`, deletes the assignment timer, and SETEXes the availability timer
with the remaining lease TTL; an expired `:tokens` key runs `delete_token`.
An error result is a Python exception escaping the event's processing. -/
def processEvent (s : RState) (e : RMsg) : Except Err Unit × RState :=
  match e with
  | .subscribeAck => (.ok (), s)
  | .otherExpired => (.ok (), s)
  | .assignedExpired t =>
    let remaining_ttl := kttl s.tokensTTL t
    if remaining_ttl < 0 then (.ok (), s)
    else
      let s1 := { s with unassignedSet := sadd s.unassignedSet t }
      let s2 := { s1 with assignedSet := srem s1.assignedSet t }
      let s3 := { s2 with assignedTTL := kdel s2.assignedTTL t }
      match ksetex s3.unassignedTTL t remaining_ttl with
      | .error e => (.error e, s3)
      | .ok mu => (.ok (), { s3 with unassignedTTL := mu })
  | .tokensExpired t =>
    let r := delete_token s t
    (r.1.map (fun _ => ()), r.2)

/-- The monitor loop of `monitor_expired_tokens` over a finite prefix of the
event stream. The inner `try` around the event body catches only
`asyncio.CancelledError`; any other exception escapes the `async for` into
the outer `except Exception` handler, which logs, sleeps, and lets the
coroutine return — so on the first failing event the loop stops, and the
events not yet consumed are returned unprocessed. -/
def monitorRun (s : RState) : List RMsg → RState × List RMsg
  | [] => (s, [])
  | e :: rest =>
    match processEvent s e with
    | (.ok _, s1) => monitorRun s1 rest
    | (.error _, s1) => (s1, rest)

/-! ### Helper lemmas about the Redis primitives -/

theorem mem_sadd {l : List String} {t x : String} :
    x ∈ sadd l t ↔ x = t ∨ x ∈ l := by
  unfold sadd
  by_cases h : t ∈ l
  · simp only [if_pos h]
    constructor
    · exact Or.inr
    · rintro (rfl | hx)
      · exact h
      · exact hx
  · simp [if_neg h]

theorem self_mem_sadd (l : List String) (t : String) : t ∈ sadd l t :=
  mem_sadd.mpr (Or.inl rfl)

theorem mem_srem {l : List String} {t x : String} :
    x ∈ srem l t ↔ x ∈ l ∧ x ≠ t := by
  induction l with
  | nil => simp [srem]
  | cons a rest ih =>
    by_cases h : a = t
    · rw [srem, if_pos h, ih]
      subst h
      simp only [List.mem_cons]
      tauto
    · rw [srem, if_neg h]
      simp only [List.mem_cons, ih]
      constructor
      · rintro (rfl | ⟨hx, hne⟩)
        · exact ⟨Or.inl rfl, fun hxt => h hxt⟩
        · exact ⟨Or.inr hx, hne⟩
      · rintro ⟨rfl | hx, hne⟩
        · exact Or.inl rfl
        · exact Or.inr ⟨hx, hne⟩

theorem self_not_mem_srem (l : List String) (t : String) : t ∉ srem l t := by
  intro h
  exact (mem_srem.mp h).2 rfl

theorem kfind_kdel_self (m : List (String × Nat)) (t : String) :
    kfind (kdel m t) t = none := by
  induction m with
  | nil => rfl
  | cons p rest ih =>
    rcases p with ⟨k, v⟩
    by_cases h : k = t
    · simpa [kdel, if_pos h] using ih
    · simpa [kdel, kfind, if_neg h, h] using ih

theorem kfind_kset_self (m : List (String × Nat)) (t : String) (v : Nat) :
    kfind (kset m t v) t = some v := by
  simp [kset, kfind]

theorem kttl_of_kfind {m : List (String × Nat)} {t : String} {r : Nat}
    (h : kfind m t = some r) : kttl m t = (r : Int) := by
  simp [kttl, h]

theorem kttl_of_absent {m : List (String × Nat)} {t : String}
    (h : kfind m t = none) : kttl m t = -2 := by
  simp [kttl, h]

theorem ksetex_pos {m : List (String × Nat)} {t : String} {v : Int} (h : 0 < v) :
    ksetex m t v = .ok (kset m t v.toNat) := by
  simp [ksetex, not_le.mpr h]

theorem ksetex_nonpos {m : List (String × Nat)} {t : String} {v : Int} (h : v ≤ 0) :
    ksetex m t v = .error .invalidExpire := by
  simp [ksetex, h]

theorem kexpire_present {m : List (String × Nat)} {t : String} {a : Nat} {v : Int}
    (hf : kfind m t = some a) (hv : 0 < v) :
    kexpire m t v = kset m t v.toNat := by
  simp [kexpire, hf, not_le.mpr hv]

/-! ### Claim theorems -/

/-- C4: for a token in the Registry and in the Assigned Set, `keep_alive`
sets the Assignment Timer's TTL to its pre-call remaining TTL plus the
configured keep-alive increment (additively, not resetting), and likewise
sets the Lease Timer's TTL to its pre-call remaining TTL plus the same
increment. -/
theorem C4_keep_alive_assigned_additive (cfg : Config) (s : RState) (t : String)
    (a b : Nat)
    (hki : 0 < cfg.keep_alive_interval)
    (htok : t ∈ s.tokenSet) (hasg : t ∈ s.assignedSet)
    (ha : kfind s.assignedTTL t = some a) (hb : kfind s.tokensTTL t = some b) :
    (keep_alive cfg s t).1 = .ok () ∧
    kfind (keep_alive cfg s t).2.assignedTTL t = some (a + cfg.keep_alive_interval) ∧
    kfind (keep_alive cfg s t).2.tokensTTL t = some (b + cfg.keep_alive_interval) := by
  have hposA : (0 : Int) < (a : Int) + (cfg.keep_alive_interval : Int) := by omega
  have hposB : (0 : Int) < (b : Int) + (cfg.keep_alive_interval : Int) := by omega
  have hnatA : ((a : Int) + (cfg.keep_alive_interval : Int)).toNat
      = a + cfg.keep_alive_interval := by omega
  have hnatB : ((b : Int) + (cfg.keep_alive_interval : Int)).toNat
      = b + cfg.keep_alive_interval := by omega
  have e1 : kexpire s.assignedTTL t ((a : Int) + (cfg.keep_alive_interval : Int))
      = kset s.assignedTTL t (a + cfg.keep_alive_interval) := by
    rw [kexpire_present ha hposA, hnatA]
  have e2 : kexpire s.tokensTTL t ((b : Int) + (cfg.keep_alive_interval : Int))
      = kset s.tokensTTL t (b + cfg.keep_alive_interval) := by
    rw [kexpire_present hb hposB, hnatB]
  simp only [keep_alive, if_pos htok, if_pos hasg, kttl_of_kfind ha, e1]
  simp only [kttl_of_kfind hb, e2, kfind_kset_self]
  refine ⟨?_, ?_, ?_⟩ <;> trivial

/-- C5: for an Assignment-Timer expiration event whose token still has a
positive Lease Timer TTL, the monitor removes the token from the Assigned
Set, adds it to the Unassigned Set, deletes the Assignment Timer key, and
creates an Availability Timer whose TTL equals the remaining Lease Timer
value. -/
theorem C5_monitor_demotes_on_assignment_expiry (s : RState) (t : String) (r : Nat)
    (hr : kfind s.tokensTTL t = some r) (hpos : 0 < r) :
    (processEvent s (.assignedExpired t)).1 = .ok () ∧
    t ∉ (processEvent s (.assignedExpired t)).2.assignedSet ∧
    t ∈ (processEvent s (.assignedExpired t)).2.unassignedSet ∧
    kfind (processEvent s (.assignedExpired t)).2.assignedTTL t = none ∧
    kfind (processEvent s (.assignedExpired t)).2.unassignedTTL t = some r := by
  have hnneg : ¬ (kttl s.tokensTTL t < 0) := by
    rw [kttl_of_kfind hr]
    omega
  have hpos' : (0 : Int) < kttl s.tokensTTL t := by
    rw [kttl_of_kfind hr]
    omega
  have htn : (kttl s.tokensTTL t).toNat = r := by
    rw [kttl_of_kfind hr]
    omega
  simp only [processEvent, if_neg hnneg, ksetex_pos hpos', htn]
  exact ⟨by trivial, self_not_mem_srem _ _, self_mem_sadd _ _, kfind_kdel_self _ _,
    kfind_kset_self _ _ _⟩

/-- A concrete state with token "a" assigned: lease TTL 100, assignment TTL 50. -/
def c4state : RState :=
  { tokenSet := ["a"], unassignedSet := [], assignedSet := ["a"],
    tokensTTL := [("a", 100)], assignedTTL := [("a", 50)], unassignedTTL := [] }

/-- Witness for C4 at a concrete state (increments 50 → 350 and 100 → 400). -/
theorem C4_keep_alive_assigned_additive_witness :
    (keep_alive defaultConfig c4state "a").1 = .ok () ∧
    kfind (keep_alive defaultConfig c4state "a").2.assignedTTL "a" = some 350 ∧
    kfind (keep_alive defaultConfig c4state "a").2.tokensTTL "a" = some 400 :=
  C4_keep_alive_assigned_additive defaultConfig c4state "a" 50 100
    (by decide) (by decide) (by decide) (by decide) (by decide)

/-- A concrete state with token "a" assigned and lease TTL 240 (its
assignment timer key has just expired). -/
def c5state : RState :=
  { tokenSet := ["a"], unassignedSet := [], assignedSet := ["a"],
    tokensTTL := [("a", 240)], assignedTTL := [], unassignedTTL := [] }

/-- Witness for C5 at a concrete state: the token is demoted with a fresh
Availability Timer of 240 seconds. -/
theorem C5_monitor_demotes_on_assignment_expiry_witness :
    (processEvent c5state (.assignedExpired "a")).1 = .ok () ∧
    "a" ∉ (processEvent c5state (.assignedExpired "a")).2.assignedSet ∧
    "a" ∈ (processEvent c5state (.assignedExpired "a")).2.unassignedSet ∧
    kfind (processEvent c5state (.assignedExpired "a")).2.assignedTTL "a" = none ∧
    kfind (processEvent c5state (.assignedExpired "a")).2.unassignedTTL "a" = some 240 :=
  C5_monitor_demotes_on_assignment_expiry c5state "a" 240 (by decide) (by decide)

/-- C6: `keep_alive` on a token that is in the Registry and in the
Unassigned Set promotes it through `assign_token` with that specific token
preset: afterwards the token is in the Assigned Set with a fresh Assignment
Timer of `active_expiry` seconds, is absent from the Unassigned Set, and
its Availability Timer key is deleted. -/
theorem C6_keep_alive_promotes_unassigned (cfg : Config) (s : RState) (t : String)
    (hae : 0 < cfg.active_expiry)
    (htok : t ∈ s.tokenSet) (hnas : t ∉ s.assignedSet) (hun : t ∈ s.unassignedSet) :
    (keep_alive cfg s t).1 = .ok () ∧
    t ∈ (keep_alive cfg s t).2.assignedSet ∧
    kfind (keep_alive cfg s t).2.assignedTTL t = some cfg.active_expiry ∧
    t ∉ (keep_alive cfg s t).2.unassignedSet ∧
    kfind (keep_alive cfg s t).2.unassignedTTL t = none := by
  have hpos : (0 : Int) < (cfg.active_expiry : Int) := by omega
  have hnat : ((cfg.active_expiry : Int)).toNat = cfg.active_expiry := by omega
  by_cases hc : kttl s.tokensTTL t < (cfg.active_expiry : Int)
  · simp only [keep_alive, assign_token, if_pos htok, if_neg hnas, if_pos hun,
      ksetex_pos hpos, hnat, Except.map, if_pos hc]
    exact ⟨by trivial, self_mem_sadd _ _, kfind_kset_self _ _ _,
      self_not_mem_srem _ _, kfind_kdel_self _ _⟩
  · simp only [keep_alive, assign_token, if_pos htok, if_neg hnas, if_pos hun,
      ksetex_pos hpos, hnat, Except.map, if_neg hc]
    exact ⟨by trivial, self_mem_sadd _ _, kfind_kset_self _ _ _,
      self_not_mem_srem _ _, kfind_kdel_self _ _⟩

/-- A concrete state with token "a" unassigned: lease and availability TTL
100 seconds. -/
def c6state : RState :=
  { tokenSet := ["a"], unassignedSet := ["a"], assignedSet := [],
    tokensTTL := [("a", 100)], assignedTTL := [], unassignedTTL := [("a", 100)] }

/-- Witness for C6 at a concrete state: the token is promoted with a fresh
60-second Assignment Timer. -/
theorem C6_keep_alive_promotes_unassigned_witness :
    (keep_alive defaultConfig c6state "a").1 = .ok () ∧
    "a" ∈ (keep_alive defaultConfig c6state "a").2.assignedSet ∧
    kfind (keep_alive defaultConfig c6state "a").2.assignedTTL "a" = some 60 ∧
    "a" ∉ (keep_alive defaultConfig c6state "a").2.unassignedSet ∧
    kfind (keep_alive defaultConfig c6state "a").2.unassignedTTL "a" = none :=
  C6_keep_alive_promotes_unassigned defaultConfig c6state "a"
    (by decide) (by decide) (by decide) (by decide)

/-- C7: `assign_token` with no preset fails with the pool-exhausted error
exactly when the Unassigned Set is empty; on a non-empty set it returns the
member it removed from the Unassigned Set, adds that token to the Assigned
Set, and creates an Assignment Timer with TTL `active_expiry`. -/
theorem C7_assign_pops_or_pool_exhausted (cfg : Config) (s : RState)
    (hae : 0 < cfg.active_expiry) :
    ((assign_token cfg s none).1 = .error .poolExhausted ↔ s.unassignedSet = []) ∧
    (∀ h rest, s.unassignedSet = h :: rest →
      (assign_token cfg s none).1 = .ok h ∧
      (assign_token cfg s none).2.unassignedSet = rest ∧
      h ∈ (assign_token cfg s none).2.assignedSet ∧
      kfind (assign_token cfg s none).2.assignedTTL h = some cfg.active_expiry) := by
  have hpos : (0 : Int) < (cfg.active_expiry : Int) := by omega
  have hnat : ((cfg.active_expiry : Int)).toNat = cfg.active_expiry := by omega
  cases hu : s.unassignedSet with
  | nil =>
    constructor
    · simp [assign_token, hu]
    · intro h rest hcons
      exact List.noConfusion hcons
  | cons h0 rest0 =>
    constructor
    · simp only [assign_token, hu, ksetex_pos hpos, hnat]
      by_cases hc : kttl s.tokensTTL h0 < (cfg.active_expiry : Int)
      · simp [if_pos hc]
      · simp [if_neg hc]
    · intro h rest hcons
      injection hcons with hh hr
      subst hh
      subst hr
      by_cases hc : kttl s.tokensTTL h0 < (cfg.active_expiry : Int)
      · simp only [assign_token, hu, ksetex_pos hpos, hnat, if_pos hc]
        exact ⟨by trivial, by trivial, self_mem_sadd _ _, kfind_kset_self _ _ _⟩
      · simp only [assign_token, hu, ksetex_pos hpos, hnat, if_neg hc]
        exact ⟨by trivial, by trivial, self_mem_sadd _ _, kfind_kset_self _ _ _⟩

/-- A concrete state with tokens "a" (unassigned, lease TTL 300) and "b"
(assigned). -/
def c7state : RState :=
  { tokenSet := ["a", "b"], unassignedSet := ["a"], assignedSet := ["b"],
    tokensTTL := [("a", 300), ("b", 300)], assignedTTL := [("b", 60)],
    unassignedTTL := [("a", 300)] }

/-- Witness for C7 at a concrete state: "a" is popped and assigned with a
60-second Assignment Timer, and the error case coincides with emptiness. -/
theorem C7_assign_pops_or_pool_exhausted_witness :
    (((assign_token defaultConfig c7state none).1 = .error .poolExhausted ↔
        c7state.unassignedSet = []) ∧
      (assign_token defaultConfig c7state none).1 = .ok "a" ∧
      (assign_token defaultConfig c7state none).2.unassignedSet = [] ∧
      "a" ∈ (assign_token defaultConfig c7state none).2.assignedSet ∧
      kfind (assign_token defaultConfig c7state none).2.assignedTTL "a" = some 60) :=
  have h := C7_assign_pops_or_pool_exhausted defaultConfig c7state (by decide)
  ⟨h.1, h.2 "a" [] (by decide)⟩

/-- C8: `unblock_token` fails `NotFound` for a token outside the Registry
and `NotAssigned` for a Registry token outside the Assigned Set; for an
assigned token whose Lease Timer key is present with a positive remaining
TTL it removes the token from the Assigned Set, deletes the Assignment
Timer key, adds the token to the Unassigned Set, and creates an
Availability Timer whose TTL equals the Lease Timer's remaining TTL. -/
theorem C8_unblock_behaviour (s : RState) (t : String) (r : Nat) :
    (t ∉ s.tokenSet → unblock_token s t = (.error .notFound, s)) ∧
    (t ∈ s.tokenSet → t ∉ s.assignedSet → unblock_token s t = (.error .notAssigned, s)) ∧
    (t ∈ s.tokenSet → t ∈ s.assignedSet → kfind s.tokensTTL t = some r → 0 < r →
      (unblock_token s t).1 = .ok t ∧
      t ∉ (unblock_token s t).2.assignedSet ∧
      kfind (unblock_token s t).2.assignedTTL t = none ∧
      t ∈ (unblock_token s t).2.unassignedSet ∧
      kfind (unblock_token s t).2.unassignedTTL t = some r) := by
  refine ⟨fun hnt => ?_, fun ht hna => ?_, fun ht ha hr hpos => ?_⟩
  · simp [unblock_token, hnt]
  · simp [unblock_token, ht, hna]
  · have hpos' : (0 : Int) < kttl s.tokensTTL t := by
      rw [kttl_of_kfind hr]
      omega
    have htn : (kttl s.tokensTTL t).toNat = r := by
      rw [kttl_of_kfind hr]
      omega
    simp only [unblock_token, if_pos ht, if_pos ha, ksetex_pos hpos', htn]
    exact ⟨by trivial, self_not_mem_srem _ _, kfind_kdel_self _ _, self_mem_sadd _ _,
      kfind_kset_self _ _ _⟩

/-- A concrete state with token "a" assigned, lease TTL 100. -/
def c8state : RState :=
  { tokenSet := ["a"], unassignedSet := [], assignedSet := ["a"],
    tokensTTL := [("a", 100)], assignedTTL := [("a", 50)], unassignedTTL := [] }

/-- Witness for C8 at a concrete state: all three branches observed. -/
theorem C8_unblock_behaviour_witness :
    unblock_token c8state "b" = (.error .notFound, c8state) ∧
    (unblock_token c8state "a").1 = .ok "a" ∧
    "a" ∉ (unblock_token c8state "a").2.assignedSet ∧
    kfind (unblock_token c8state "a").2.assignedTTL "a" = none ∧
    "a" ∈ (unblock_token c8state "a").2.unassignedSet ∧
    kfind (unblock_token c8state "a").2.unassignedTTL "a" = some 100 :=
  ⟨(C8_unblock_behaviour c8state "b" 0).1 (by decide),
    (C8_unblock_behaviour c8state "a" 100).2.2 (by decide) (by decide)
      (by decide) (by decide)⟩

/-- C9: `keep_alive` on a Registry token that is in neither the Assigned
Set nor the Unassigned Set succeeds, performs no promotion and writes no
Assignment Timer, and its only effect is to set the Lease Timer's TTL to
its current remaining value plus the keep-alive increment. -/
theorem C9_keep_alive_mid_transition (cfg : Config) (s : RState) (t : String) (r : Nat)
    (hki : 0 < cfg.keep_alive_interval)
    (htok : t ∈ s.tokenSet) (hnas : t ∉ s.assignedSet) (hnun : t ∉ s.unassignedSet)
    (hr : kfind s.tokensTTL t = some r) :
    keep_alive cfg s t =
      (.ok (), { s with tokensTTL := kset s.tokensTTL t (r + cfg.keep_alive_interval) }) := by
  have hposB : (0 : Int) < (r : Int) + (cfg.keep_alive_interval : Int) := by omega
  have hnatB : ((r : Int) + (cfg.keep_alive_interval : Int)).toNat
      = r + cfg.keep_alive_interval := by omega
  have e2 : kexpire s.tokensTTL t ((r : Int) + (cfg.keep_alive_interval : Int))
      = kset s.tokensTTL t (r + cfg.keep_alive_interval) := by
    rw [kexpire_present hr hposB, hnatB]
  simp only [keep_alive, if_pos htok, if_neg hnas, if_neg hnun, kttl_of_kfind hr, e2]

/-- A concrete state with token "a" in the Registry only (mid-transition):
lease TTL 100, no membership in either set, no state timers. -/
def c9state : RState :=
  { tokenSet := ["a"], unassignedSet := [], assignedSet := [],
    tokensTTL := [("a", 100)], assignedTTL := [], unassignedTTL := [] }

/-- Witness for C9 at a concrete state: only the lease TTL changes, 100 → 400. -/
theorem C9_keep_alive_mid_transition_witness :
    keep_alive defaultConfig c9state "a" =
      (.ok (), { c9state with tokensTTL := kset c9state.tokensTTL "a" 400 }) :=
  C9_keep_alive_mid_transition defaultConfig c9state "a" 100
    (by decide) (by decide) (by decide) (by decide) (by decide)

/-- C10: `unblock_token` removes the token from the Assigned Set, deletes
the Assignment Timer, and adds the token to the Unassigned Set before it
creates the Availability Timer; when the Lease Timer key is absent at the
TTL read, the SETEX fails and the call raises, yet those earlier mutations
persist — the pre-call state is not restored. -/
theorem C10_unblock_partial_mutation_on_error (s : RState) (t : String)
    (htok : t ∈ s.tokenSet) (hasg : t ∈ s.assignedSet)
    (habs : kfind s.tokensTTL t = none) :
    (unblock_token s t).1 = .error .invalidExpire ∧
    t ∉ (unblock_token s t).2.assignedSet ∧
    kfind (unblock_token s t).2.assignedTTL t = none ∧
    t ∈ (unblock_token s t).2.unassignedSet := by
  have hneg : kttl s.tokensTTL t ≤ 0 := by
    rw [kttl_of_absent habs]
    omega
  simp only [unblock_token, if_pos htok, if_pos hasg, ksetex_nonpos hneg]
  exact ⟨by trivial, self_not_mem_srem _ _, kfind_kdel_self _ _, self_mem_sadd _ _⟩

/-- A concrete state with token "a" assigned but its Lease Timer key absent. -/
def c10state : RState :=
  { tokenSet := ["a"], unassignedSet := [], assignedSet := ["a"],
    tokensTTL := [], assignedTTL := [("a", 50)], unassignedTTL := [] }

/-- Witness for C10 at a concrete state: the call raises and the partial
mutations persist. -/
theorem C10_unblock_partial_mutation_on_error_witness :
    (unblock_token c10state "a").1 = .error .invalidExpire ∧
    "a" ∉ (unblock_token c10state "a").2.assignedSet ∧
    kfind (unblock_token c10state "a").2.assignedTTL "a" = none ∧
    "a" ∈ (unblock_token c10state "a").2.unassignedSet :=
  C10_unblock_partial_mutation_on_error c10state "a" (by decide) (by decide) (by decide)

/-- A concrete state with token "a" assigned and lease TTL exactly zero. -/
def c1state : RState :=
  { tokenSet := ["a"], unassignedSet := [], assignedSet := ["a"],
    tokensTTL := [("a", 0)], assignedTTL := [], unassignedTTL := [] }

/-- C1 counterexample: at lease TTL exactly zero the monitor does NOT skip
the Assignment-Timer expiration event: it adds the token to the Unassigned
Set and removes it from the Assigned Set (and the availability SETEX then
raises an invalid-expire error). The code only skips when the TTL is
strictly negative (`remaining_ttl < 0`). -/
theorem C1_counterexample_zero_ttl_not_skipped :
    kttl c1state.tokensTTL "a" = 0 ∧
    "a" ∉ c1state.unassignedSet ∧
    "a" ∈ (processEvent c1state (.assignedExpired "a")).2.unassignedSet ∧
    "a" ∈ c1state.assignedSet ∧
    "a" ∉ (processEvent c1state (.assignedExpired "a")).2.assignedSet ∧
    (processEvent c1state (.assignedExpired "a")).1 = .error .invalidExpire := by
  decide

/-- C1 amended: for every Assignment-Timer expiration event, if the token's
Lease Timer remaining TTL at that moment is strictly negative (in Redis
terms: the lease key is gone), the monitor skips the event and performs no
state mutation; at a remaining TTL of exactly zero it proceeds instead. -/
theorem C1_monitor_skips_on_negative_lease_ttl (s : RState) (t : String)
    (h : kttl s.tokensTTL t < 0) :
    processEvent s (.assignedExpired t) = (.ok (), s) := by
  simp [processEvent, if_pos h]

/-- A concrete state whose lease key for "a" is absent (TTL reads -2). -/
def c1wstate : RState :=
  { tokenSet := ["a"], unassignedSet := [], assignedSet := ["a"],
    tokensTTL := [], assignedTTL := [], unassignedTTL := [] }

/-- Witness for the amended C1 at a concrete state: the event is skipped
without any mutation. -/
theorem C1_monitor_skips_on_negative_lease_ttl_witness :
    processEvent c1wstate (.assignedExpired "a") = (.ok (), c1wstate) :=
  C1_monitor_skips_on_negative_lease_ttl c1wstate "a" (by decide)

/-- A concrete state with token "a" assigned and lease TTL 240; the token
"zz" is unknown to the Registry. -/
def c2state : RState :=
  { tokenSet := ["a"], unassignedSet := [], assignedSet := ["a"],
    tokensTTL := [("a", 240)], assignedTTL := [("a", 0)], unassignedTTL := [] }

/-- C2 at a failing input: processing the expiry of `token:zz:tokens` for
the unknown token "zz" raises an ordinary (non-cancellation) error inside
the loop body; the inner `try` catches only `CancelledError`, so the
exception escapes the `async for` into the outer `except Exception`, which
logs and lets the coroutine return. The monitor loop therefore terminates:
the following `token:a:assigned` expiry event is never consumed, and the
demotion it would have performed (removing "a" from the Assigned Set) never
happens — contradicting the claim that the loop continues past per-event
errors. -/
theorem C2_monitor_terminates_on_event_error :
    (processEvent c2state (.tokensExpired "zz")).1 = .error .notFound ∧
    monitorRun c2state [.tokensExpired "zz", .assignedExpired "a"]
      = (c2state, [.assignedExpired "a"]) ∧
    "a" ∈ (monitorRun c2state [.tokensExpired "zz", .assignedExpired "a"]).1.assignedSet ∧
    "a" ∉ (processEvent c2state (.assignedExpired "a")).2.assignedSet := by
  decide

/-- A registry that already contains "a", the only candidate the colliding
generator stream will ever produce. -/
def c3state : RState :=
  { tokenSet := ["a"], unassignedSet := [], assignedSet := [],
    tokensTTL := [], assignedTTL := [], unassignedTTL := [] }

/-- C3 counterexample: with a candidate stream that always collides with
the Registry, `generate_token` is still running after any number of loop
iterations: the `while True` retry loop has no bound and never produces the
claimed internal error, so the function does not terminate for every
sequence of collision outcomes. -/
theorem C3_counterexample_unbounded_retry :
    ¬ ∃ fuel, (generate_token defaultConfig (fun _ => "a") c3state fuel 0).isSome = true := by
  rintro ⟨fuel, hf⟩
  have hall : ∀ n i, generate_token defaultConfig (fun _ => "a") c3state n i = none := by
    intro n
    induction n with
    | zero => intro i; rfl
    | succ k ih =>
      intro i
      have hmem : "a" ∈ c3state.tokenSet := by decide
      simpa [generate_token, if_pos hmem] using ih (i + 1)
  rw [hall fuel 0] at hf
  exact Bool.noConfusion hf

/-- C3 amended: `generate_token` retries identifier generation with no
bound on the retry count; it terminates exactly on runs in which some
candidate identifier is fresh: whenever the `j`-th candidate after call
index `i` is outside the Registry and `j` is within the observed fuel, the
call returns. (No internal error exists: exhaustion is impossible because
there is no retry cap.) -/
theorem C3_generate_terminates_on_fresh_candidate (cfg : Config)
    (cand : Nat → String) (s : RState) (fuel i j : Nat) (hj : j < fuel)
    (hfresh : cand (i + j) ∉ s.tokenSet) :
    (generate_token cfg cand s fuel i).isSome = true := by
  induction fuel generalizing i j with
  | zero => omega
  | succ k ih =>
    by_cases hc : cand i ∈ s.tokenSet
    · cases j with
      | zero => exact absurd hc (by simpa using hfresh)
      | succ j' =>
        have harith : i + 1 + j' = i + (j' + 1) := by omega
        have hres := ih (i + 1) j' (by omega) (by rw [harith]; exact hfresh)
        simpa [generate_token, if_pos hc] using hres
    · simp only [generate_token, if_neg hc]
      split
      · rfl
      · split <;> rfl

/-- Witness for the amended C3 at a concrete input: the third candidate is
fresh, so five iterations of fuel suffice. -/
theorem C3_generate_terminates_on_fresh_candidate_witness :
    (generate_token defaultConfig (fun n => if n < 2 then "a" else "b") c3state 5 0).isSome
      = true :=
  C3_generate_terminates_on_fresh_candidate defaultConfig
    (fun n => if n < 2 then "a" else "b") c3state 5 0 2 (by decide) (by decide)
